import Mathlib

/-!
Verification of the gofile CLI (`src/main.rs`): the identifier resolver
(`ContentId::parse_content_id`), the one-level content-tree walker
(`download_all_child_contents`), and the MD5 checksum filter (`Md5Filter`).

Machine integers are modelled as `Nat`; bytes as `Nat` (values below 256 at
use sites); a 128-bit UUID as a `Nat` below 2^128. Calls into external crates
(`uuid`, `url`, `md5`, the gofile API, HTTP and the filesystem) are either
modelled faithfully from the crate's documented algorithm (UUID parsing, hex
formatting) or abstracted as explicit function parameters (URL parsing, the
MD5 compression function, the API lookups, the per-file download), so that
every theorem quantifies over all behaviours of the collaborator.
-/

namespace Gofile

/-- Numeric value of one hexadecimal digit, case-insensitive; `none` on any
other character. Models the per-byte table lookup of the uuid crate's parser. -/
def hexVal (c : Char) : Option Nat :=
  if '0' ≤ c ∧ c ≤ '9' then some (c.toNat - '0'.toNat)
  else if 'a' ≤ c ∧ c ≤ 'f' then some (c.toNat - 'a'.toNat + 10)
  else if 'A' ≤ c ∧ c ≤ 'F' then some (c.toNat - 'A'.toNat + 10)
  else none

/-- Big-endian accumulation of hexadecimal digits; `none` as soon as one
character is not a hex digit. -/
def parseHexDigits : List Char → Nat → Option Nat
  | [], acc => some acc
  | c :: cs, acc =>
    match hexVal c with
    | some v => parseHexDigits cs (acc * 16 + v)
    | none => none

namespace Uuid

/-- Model of the uuid crate's `parse_simple`: exactly 32 hex digits. -/
def parse_simple (cs : List Char) : Option Nat :=
  if cs.length = 32 then parseHexDigits cs 0 else none

/-- Model of the uuid crate's `parse_hyphenated`: exactly 36 characters, with
the literal `-` at offsets 8, 13, 18 and 23 and hex digits everywhere else,
in the canonical 8-4-4-4-12 grouping. -/
def parse_hyphenated (cs : List Char) : Option Nat :=
  if cs.length = 36 ∧ cs.get? 8 = some '-' ∧ cs.get? 13 = some '-' ∧
      cs.get? 18 = some '-' ∧ cs.get? 23 = some '-' then
    parseHexDigits
      (cs.take 8 ++ (cs.drop 9).take 4 ++ (cs.drop 14).take 4 ++
        (cs.drop 19).take 4 ++ cs.drop 24) 0
  else none

/-- Model of `Uuid::parse_str` (the uuid crate's `try_parse_ascii`): an input
of length 32 must be a simple (non-hyphenated) UUID; length 36 a hyphenated
UUID; length 38 a braced hyphenated UUID `{...}`; length 45 a URN
`urn:uuid:` followed by the hyphenated form; every other length is rejected. -/
def parse_str (s : String) : Option Nat :=
  let cs := s.toList
  if cs.length = 32 then parse_simple cs
  else if cs.length = 36 then parse_hyphenated cs
  else if cs.length = 38 ∧ cs.head? = some '{' ∧ cs.getLast? = some '}' then
    parse_hyphenated (cs.drop 1).dropLast
  else if cs.length = 45 ∧ cs.take 9 = "urn:uuid:".toList then
    parse_hyphenated (cs.drop 9)
  else none

end Uuid

/-- Abstraction of the url crate's `Url`: the serialized form, and the result
of `path_segments()` — `none` for cannot-be-a-base URLs, otherwise the path
after its leading `/` split on `/` (so a URL with path `/` has segments
`[""]`, and a trailing slash contributes a final empty segment). -/
structure Url where
  serialization : String
  path_segments : Option (List String)
deriving DecidableEq, Repr

/-- Error enum of `src/main.rs`. Payloads that in Rust carry values of
external error types (`reqwest::Error`, `gofile_api::Error`, I/O error
messages) are modelled as their display strings. -/
inductive Error where
  | TokenNotPresent
  | TokenNotUnicode
  | InvalidUrl (url : Url)
  | InvalidContentUrl (url : Url)
  | InvalidDownloadUrl (url : Url)
  | InvalidTopLevelFile (name : String)
  | NoContent
  | NotImplementedForSubdir
  | HttpRequestError (msg : String)
  | GoFileApiError (msg : String)
  | FileCouldntBeCreated (msg : String)
  | FileCouldntBeWritten (msg : String)
  | CouldntReadMetadata (msg : String)
  | NotAFile (path : String)
  | Md5DigestMismatched (msg : String)
deriving DecidableEq, Repr

/-- The `ContentId` enum of `src/main.rs`. -/
inductive ContentId where
  | DownloadUrl (url : Url) (filename : String)
  | Uuid (id : Nat)
  | Code (value : String)
deriving DecidableEq, Repr

/-- Lines 149–184 of `src/main.rs`: the URL-shape analysis performed by
`ContentId::parse_content_id` once `Url::parse` has succeeded. A `none`
segment iterator (cannot-be-a-base URL) is `InvalidUrl`; first segment `"d"`
requires exactly one further segment (the code); first segment `"download"`
requires a second segment parsing as a UUID and exactly one further segment
(the filename), returning the original URL; any other first segment (or an
empty segment list) is `InvalidUrl`. -/
def parse_url_content_id (url : Url) : Except Error ContentId :=
  match url.path_segments with
  | none => .error (.InvalidUrl url)
  | some segs =>
    match segs with
    | "d" :: rest =>
      match rest with
      | [] => .error (.InvalidContentUrl url)
      | [code] => .ok (.Code code)
      | _ :: _ :: _ => .error (.InvalidContentUrl url)
    | "download" :: rest =>
      match rest with
      | [] => .error (.InvalidDownloadUrl url)
      | uuid_str :: rest2 =>
        match Uuid.parse_str uuid_str with
        | none => .error (.InvalidDownloadUrl url)
        | some _ =>
          match rest2 with
          | [] => .error (.InvalidDownloadUrl url)
          | [filename] => .ok (.DownloadUrl url filename)
          | _ :: _ :: _ => .error (.InvalidDownloadUrl url)
    | _ => .error (.InvalidUrl url)

/-- `ContentId::parse_content_id` (lines 145–187 of `src/main.rs`),
parameterized by the url crate's `Url::parse` (an external collaborator):
first try `Uuid::parse_str`; on failure try `Url::parse` and analyse the URL
shape; if the input is not a URL either, fall back to `Code` verbatim. -/
def parse_content_id (urlParse : String → Option Url) (content_id_str : String) :
    Except Error ContentId :=
  match Uuid.parse_str content_id_str with
  | some uuid => .ok (.Uuid uuid)
  | none =>
    match urlParse content_id_str with
    | some url => parse_url_content_id url
    | none => .ok (.Code content_id_str)

/-- Lowercase ASCII host characters on which the WHATWG host parser is the
identity: lowercase letters, digits, `.` and `-`. -/
def is_url_host_char (c : Char) : Bool :=
  c.isLower || c.isDigit || c = '.' || c = '-'

/-- Path characters on which the WHATWG path serializer is the identity (no
percent-encoding, no `.`/`..` collapsing triggers beyond plain names used
here): letters, digits, `.`, `-`, `_` and `~`. -/
def is_url_path_char (c : Char) : Bool :=
  c.isAlphanum || c = '.' || c = '-' || c = '_' || c = '~'

/-- Split a character list on `/`, keeping empty pieces, as Rust's
`str::split('/')` does: `splitOnSlash "a/b/" = ["a", "b", ""]` and the empty
input gives one empty piece. -/
def splitOnSlash : List Char → List (List Char)
  | [] => [[]]
  | c :: rest =>
    if c = '/' then [] :: splitOnSlash rest
    else
      match splitOnSlash rest with
      | [] => [[c]]
      | piece :: pieces => (c :: piece) :: pieces

/-- Model of the url crate's `Url::parse` on a restricted fragment:
`http://` or `https://` followed by a non-empty lowercase host and a `/`
separated path of plain characters. On this fragment the WHATWG algorithm
succeeds, serializes back to the input, and yields the path segments by
splitting after the host on `/` (a host with no path at all gets path `/`,
i.e. the single segment `""`). Outside the fragment this model returns
`none`, which is not always what `Url::parse` does — so universally
quantified theorems about URLs are stated over arbitrary parsers or over
`Url` values, and this model is used only to evaluate the program on
concrete inputs that lie inside the fragment. -/
def url_parse_model (s : String) : Option Url :=
  let cs := s.toList
  let after := fun (schemeLen : Nat) =>
    match splitOnSlash (cs.drop schemeLen) with
    | [] => none
    | host :: segs =>
      if host.length ≠ 0 ∧ host.all is_url_host_char ∧
          segs.all (fun seg => seg.all is_url_path_char) then
        some (Url.mk s (some (if segs.isEmpty then [""] else segs.map String.mk)))
      else none
  if cs.take 8 = "https://".toList then after 8
  else if cs.take 7 = "http://".toList then after 7
  else none

/-- Lowercase hex digit for a value below 16, as produced by Rust `{:x}`
formatting. -/
def hexChar (n : Nat) : Char :=
  if n < 10 then Char.ofNat ('0'.toNat + n) else Char.ofNat ('a'.toNat + (n - 10))

/-- Rust `{:02x}` on one byte: two lowercase hex digits. -/
def byteToHex (b : Nat) : String :=
  String.mk [hexChar (b / 16 % 16), hexChar (b % 16)]

/-- The md5 crate's `LowerHex` for `md5::Digest`: each of the 16 bytes as two
lowercase hex digits, in order. -/
def digestToHex (d : List Nat) : String :=
  String.join (d.map byteToHex)

mutual
/-- The `gofile_api::ContentKind` enum as used by `src/main.rs`: a folder
kind carries an optional child map (modelled as an association list in
enumeration order, child id → child content); a file kind carries the
download `link` and the server-declared `md5` (16 bytes). Fields of the
crate's type that `src/main.rs` never reads are omitted. -/
inductive ContentKind where
  | Folder (contents : Option (List (Nat × Content)))
  | File (link : Url) (md5 : List Nat)
/-- The `gofile_api::Content` record as used by `src/main.rs`: a `name` and
a `kind`. -/
inductive Content where
  | mk (name : String) (kind : ContentKind)
end

/-- Projection for the `name` field of `Content`. -/
def Content.name : Content → String
  | .mk n _ => n

/-- Projection for the `kind` field of `Content`. -/
def Content.kind : Content → ContentKind
  | .mk _ k => k

/-- The child loop of `download_all_child_contents` (lines 282–290 of
`src/main.rs`), with the downloading side effect abstracted as `dl`, which
maps a link and a destination filename to either an error or the MD5 digest
(16 bytes) `download_impl` returns for that transfer: each child must be a
file, is downloaded to its name, and its digest is compared with the
declared checksum; the first failure aborts the loop. -/
def download_children (dl : Url → String → Except Error (List Nat)) :
    List (Nat × Content) → Except Error Unit
  | [] => .ok ()
  | (_, content) :: rest =>
    match content.kind with
    | .Folder _ => .error .NotImplementedForSubdir
    | .File link md5 =>
      match dl link content.name with
      | .error e => .error e
      | .ok digest =>
        if md5 ≠ digest then
          .error (.Md5DigestMismatched (digestToHex md5 ++ " != " ++ digestToHex digest))
        else
          download_children dl rest

/-- `download_all_child_contents` (lines 271–292 of `src/main.rs`): the
content must be a folder, its child collection must be present and
non-empty, and then the children are processed in order by the child loop. -/
def download_all_child_contents (dl : Url → String → Except Error (List Nat))
    (content : Content) : Except Error Unit :=
  match content.kind with
  | .File _ _ => .error (.InvalidTopLevelFile content.name)
  | .Folder contents =>
    match contents with
    | none => .error .NoContent
    | some contents =>
      if contents.length = 0 then .error .NoContent
      else download_children dl contents

/-- `download` (lines 203–221 of `src/main.rs`) with the API collaborator
abstracted: a direct download URL is transferred once (its digest is
discarded); a UUID or code is resolved to a content description via the API
and handed to `download_all_child_contents`. -/
def download (getById : Nat → Except Error Content)
    (getByCode : String → Except Error Content)
    (dl : Url → String → Except Error (List Nat)) :
    ContentId → Except Error Unit
  | .DownloadUrl url filename =>
    match dl url filename with
    | .error e => .error e
    | .ok _ => .ok ()
  | .Uuid id =>
    match getById id with
    | .error e => .error e
    | .ok content => download_all_child_contents dl content
  | .Code code =>
    match getByCode code with
    | .error e => .error e
    | .ok content => download_all_child_contents dl content

/-- Instrumented form of `download_children`: same result, and additionally
the list of transfers actually performed (link and destination filename of
every `download_impl` call the loop makes), so that fail-fast behaviour is
observable. -/
def download_children_trace (dl : Url → String → Except Error (List Nat)) :
    List (Nat × Content) → Except Error Unit × List (Url × String)
  | [] => (.ok (), [])
  | (_, content) :: rest =>
    match content.kind with
    | .Folder _ => (.error .NotImplementedForSubdir, [])
    | .File link md5 =>
      match dl link content.name with
      | .error e => (.error e, [(link, content.name)])
      | .ok digest =>
        if md5 ≠ digest then
          (.error (.Md5DigestMismatched (digestToHex md5 ++ " != " ++ digestToHex digest)),
            [(link, content.name)])
        else
          let r := download_children_trace dl rest
          (r.1, (link, content.name) :: r.2)

/-- Instrumented form of `download_all_child_contents`: same result plus the
transfer trace. -/
def download_all_child_contents_trace (dl : Url → String → Except Error (List Nat))
    (content : Content) : Except Error Unit × List (Url × String) :=
  match content.kind with
  | .File _ _ => (.error (.InvalidTopLevelFile content.name), [])
  | .Folder contents =>
    match contents with
    | none => (.error .NoContent, [])
    | some contents =>
      if contents.length = 0 then (.error .NoContent, [])
      else download_children_trace dl contents

/-- The instrumented child loop computes the same result as the plain one. -/
theorem download_children_trace_fst (dl : Url → String → Except Error (List Nat)) :
    ∀ l : List (Nat × Content), (download_children_trace dl l).1 = download_children dl l
  | [] => rfl
  | (id, content) :: rest => by
    cases content with
    | mk name kind =>
      cases kind with
      | Folder c => rfl
      | File link md5 =>
        simp only [download_children_trace, download_children, Content.kind, Content.name]
        cases dl link name with
        | error e => rfl
        | ok digest =>
          by_cases h : md5 = digest <;>
            simp [h, download_children_trace_fst dl rest]

/-- The instrumented walker computes the same result as the plain one. -/
theorem download_all_child_contents_trace_fst
    (dl : Url → String → Except Error (List Nat)) (content : Content) :
    (download_all_child_contents_trace dl content).1 =
      download_all_child_contents dl content := by
  cases content with
  | mk name kind =>
    cases kind with
    | File link md5 => rfl
    | Folder contents =>
      cases contents with
      | none => rfl
      | some l =>
        simp only [download_all_child_contents_trace, download_all_child_contents,
          Content.kind]
        by_cases h : l.length = 0 <;> simp [h, download_children_trace_fst]

/-- The `Md5Filter` struct of `src/main.rs` with the wrapped sink
instantiated at the destination file: `writer` is the byte content of the
file (the bytes the sink has accepted so far), and `md5_cx` is the
`md5::Context`, modelled by the exact byte stream fed to `consume` so far
(the digest is a pure function of that stream). -/
structure Md5Filter where
  writer : List Nat
  md5_cx : List Nat
deriving DecidableEq, Repr

/-- `Md5Filter::new`: wrap a sink with a fresh `md5::Context` (an empty
consumed stream). -/
def Md5Filter.new (writer : List Nat) : Md5Filter :=
  { writer := writer, md5_cx := [] }

/-- `Md5Filter::compute_digest`: finalize the context over the consumed
stream. The MD5 compression itself lives in the external md5 crate, so the
hash function is passed as a parameter `md5`: the digest is `md5` applied to
every byte consumed. -/
def Md5Filter.compute_digest (md5 : List Nat → List Nat) (f : Md5Filter) : List Nat :=
  md5 f.md5_cx

/-- One completed `Md5Filter::poll_write` (lines 315–323 of `src/main.rs`) in
which the wrapped sink accepted `size` bytes of `buf` (Rust's `AsyncWrite`
contract guarantees `size ≤ buf.len()`; `List.take` clamps accordingly): the
sink appends the accepted prefix, and exactly that prefix — `&buf[..size]` —
is fed to `consume`. A `Pending` poll changes no state and an `Err` poll
aborts the transfer, so completed writes are the only state transitions. -/
def Md5Filter.poll_write (f : Md5Filter) (buf : List Nat) (size : Nat) : Md5Filter :=
  { writer := f.writer ++ buf.take size, md5_cx := f.md5_cx ++ buf.take size }

/-- The write loop `futures::io::copy` runs for one chunk of the source
stream: it re-issues `poll_write` on the unwritten remainder until the chunk
is fully written. `accepts` is the environment's schedule of how many bytes
the wrapped sink accepts at each completed poll; the loop succeeds (`some`)
exactly when the schedule exhausts the chunk. -/
def write_all (f : Md5Filter) (chunk : List Nat) : List Nat → Option Md5Filter
  | [] => if chunk.isEmpty then some f else none
  | size :: rest =>
    if chunk.isEmpty then none
    else write_all (f.poll_write chunk size) (chunk.drop size) rest

/-- `futures::io::copy` driving the whole response body through the filter:
`chunks` is the source stream's division of the byte sequence into chunks
(one per network read), and `sched` gives, chunk by chunk, the sink's
partial-acceptance schedule. The copy completes (`some`) exactly when every
chunk is fully written. -/
def copy (f : Md5Filter) : List (List Nat) → List (List Nat) → Option Md5Filter
  | [], [] => some f
  | chunk :: chunks, accepts :: sched =>
    match write_all f chunk accepts with
    | none => none
    | some f => copy f chunks sched
  | _, _ => none

/-- A completed `write_all` appends the chunk, byte for byte, both to the
sink's accepted bytes and to the consumed digest stream. -/
theorem write_all_spec : ∀ (accepts chunk : List Nat) (f f' : Md5Filter),
    write_all f chunk accepts = some f' →
    f'.writer = f.writer ++ chunk ∧ f'.md5_cx = f.md5_cx ++ chunk := by
  intro accepts
  induction accepts with
  | nil =>
    intro chunk f f' h
    cases chunk with
    | nil =>
      simp only [write_all, List.isEmpty_nil, if_true, Option.some.injEq] at h
      subst h
      simp
    | cons b bs => simp [write_all] at h
  | cons size rest ih =>
    intro chunk f f' h
    cases chunk with
    | nil => simp [write_all] at h
    | cons b bs =>
      simp only [write_all, List.isEmpty_cons, if_false] at h
      have hrec := ih ((b :: bs).drop size) (Md5Filter.poll_write f (b :: bs) size) f' h
      refine ⟨?_, ?_⟩
      · rw [hrec.1]
        simp [Md5Filter.poll_write, List.append_assoc, List.take_append_drop]
      · rw [hrec.2]
        simp [Md5Filter.poll_write, List.append_assoc, List.take_append_drop]

/-- A completed `copy` appends the concatenation of all chunks, byte for
byte, both to the sink's accepted bytes and to the consumed digest stream —
independently of the chunk boundaries and of the acceptance schedule. -/
theorem copy_spec : ∀ (chunks sched : List (List Nat)) (f f' : Md5Filter),
    copy f chunks sched = some f' →
    f'.writer = f.writer ++ chunks.flatten ∧ f'.md5_cx = f.md5_cx ++ chunks.flatten := by
  intro chunks
  induction chunks with
  | nil =>
    intro sched f f' h
    cases sched with
    | nil =>
      simp only [copy, Option.some.injEq] at h
      subst h
      simp
    | cons s ss => simp [copy] at h
  | cons chunk chunks ih =>
    intro sched f f' h
    cases sched with
    | nil => simp [copy] at h
    | cons accepts sched =>
      simp only [copy] at h
      cases hw : write_all f chunk accepts with
      | none => rw [hw] at h; simp at h
      | some fmid =>
        rw [hw] at h
        have h1 := write_all_spec accepts chunk f fmid hw
        have h2 := ih sched fmid f' h
        refine ⟨?_, ?_⟩
        · rw [h2.1, h1.1]
          simp [List.append_assoc]
        · rw [h2.2, h1.2]
          simp [List.append_assoc]

/-- Helper record for stating theorems about a run of well-behaved folder
children: a file child whose transfer yields exactly its declared digest. -/
structure FileChild where
  id : Nat
  name : String
  link : Url
  md5 : List Nat

/-- View a `FileChild` as the child-map entry it denotes. -/
def FileChild.toChild (fc : FileChild) : Nat × Content :=
  (fc.id, Content.mk fc.name (.File fc.link fc.md5))

/-- A run of children whose downloads each return exactly the declared digest
passes through the instrumented child loop, contributing its transfers to the
trace, and the loop continues on the remainder. -/
theorem download_children_trace_ok_run (dl : Url → String → Except Error (List Nat)) :
    ∀ (pre : List FileChild), (∀ fc ∈ pre, dl fc.link fc.name = .ok fc.md5) →
    ∀ rest : List (Nat × Content),
    download_children_trace dl (pre.map FileChild.toChild ++ rest) =
      ((download_children_trace dl rest).1,
        pre.map (fun fc => (fc.link, fc.name)) ++ (download_children_trace dl rest).2) := by
  intro pre
  induction pre with
  | nil => intro _ rest; simp
  | cons fc pre ih =>
    intro hpre rest
    have hfc : dl fc.link fc.name = .ok fc.md5 := hpre fc (List.mem_cons_self _ _)
    have ihr := ih (fun x hx => hpre x (List.mem_cons_of_mem _ hx)) rest
    simp only [List.map_cons, List.cons_append, download_children_trace,
      FileChild.toChild, Content.kind, Content.name, hfc, ne_eq, not_true_eq_false,
      if_false, ite_not]
    simp [ihr]

/-- C1 (counterexample): the resolver is not total. On the input
`"https://gofile.io/x"` — not a unique identifier, and a URL whose first
path segment is neither `"d"` nor `"download"` — `parse_content_id` fails
with `InvalidUrl` instead of degrading to `Code`. -/
theorem C1_not_total_counterexample :
    parse_content_id url_parse_model "https://gofile.io/x" =
      .error (.InvalidUrl (Url.mk "https://gofile.io/x" (some ["x"]))) := by
  rfl

/-- C1 (amended): the resolver produces exactly one result per input and is
total on inputs that do not parse as absolute URLs: every string that is
neither a unique identifier nor a parseable URL resolves to `Code` with the
string verbatim, whatever the URL parser's behaviour elsewhere; a string
that does parse as a URL may instead be rejected with an invalid-URL error. -/
theorem C1_code_catch_all (urlParse : String → Option Url) (s : String)
    (h1 : Uuid.parse_str s = none) (h2 : urlParse s = none) :
    parse_content_id urlParse s = .ok (.Code s) := by
  simp [parse_content_id, h1, h2]

/-- Witness for C1 (amended) at the input `"plainword"`. -/
theorem C1_code_catch_all_witness :
    Uuid.parse_str "plainword" = none ∧ url_parse_model "plainword" = none ∧
    parse_content_id url_parse_model "plainword" = .ok (.Code "plainword") :=
  ⟨by decide, by decide,
    C1_code_catch_all url_parse_model "plainword" (by decide) (by decide)⟩

/-- C2: for every input string accepted by `Uuid::parse_str`, the resolver
returns `Uuid` — for every possible behaviour of the URL parser, so in
particular even when the string would also parse as an absolute URL. -/
theorem C2_uuid_priority (urlParse : String → Option Url) (s : String) (u : Nat)
    (h : Uuid.parse_str s = some u) :
    parse_content_id urlParse s = .ok (.Uuid u) := by
  simp [parse_content_id, h]

/-- Witness for C2 at the spec's example identifier. -/
theorem C2_uuid_priority_witness :
    Uuid.parse_str "d290f1ee-6c54-4b01-90e6-d701748f0851" =
      some 279890476813004791971719517438707959889 ∧
    parse_content_id url_parse_model "d290f1ee-6c54-4b01-90e6-d701748f0851" =
      .ok (.Uuid 279890476813004791971719517438707959889) :=
  ⟨by decide,
    C2_uuid_priority url_parse_model "d290f1ee-6c54-4b01-90e6-d701748f0851"
      279890476813004791971719517438707959889 (by decide)⟩

/-- C3: for every URL whose first path segment is `"d"`: exactly one further
segment yields `Code` of that segment; a missing second segment rejects with
`InvalidContentUrl`; any extra trailing segment rejects with
`InvalidContentUrl`. -/
theorem C3_d_branch (url : Url) (rest : List String)
    (h : url.path_segments = some ("d" :: rest)) :
    (∀ code, rest = [code] → parse_url_content_id url = .ok (.Code code)) ∧
    (rest = [] → parse_url_content_id url = .error (.InvalidContentUrl url)) ∧
    (∀ s₂ s₃ t, rest = s₂ :: s₃ :: t →
      parse_url_content_id url = .error (.InvalidContentUrl url)) := by
  refine ⟨?_, ?_, ?_⟩
  · rintro code rfl
    simp [parse_url_content_id, h]
  · rintro rfl
    simp [parse_url_content_id, h]
  · rintro s₂ s₃ t rfl
    simp [parse_url_content_id, h]

/-- Witness for C3 at the URL `https://gofile.io/d/AbCdEf`, whose segments
are `["d", "AbCdEf"]`. -/
theorem C3_d_branch_witness :
    parse_url_content_id (Url.mk "https://gofile.io/d/AbCdEf" (some ["d", "AbCdEf"])) =
      .ok (.Code "AbCdEf") :=
  (C3_d_branch (Url.mk "https://gofile.io/d/AbCdEf" (some ["d", "AbCdEf"]))
    ["AbCdEf"] rfl).1 "AbCdEf" rfl

/-- C4: for every URL whose first path segment is `"download"`: when the
second segment parses as a UUID and exactly one further segment follows, the
resolver returns `DownloadUrl` carrying the original URL value itself and
that third segment as filename; a non-UUID second segment, a missing second
or third segment, and any extra trailing segment each reject with
`InvalidDownloadUrl`. -/
theorem C4_download_branch (url : Url) (rest : List String)
    (h : url.path_segments = some ("download" :: rest)) :
    (∀ idStr name u, rest = [idStr, name] → Uuid.parse_str idStr = some u →
      parse_url_content_id url = .ok (.DownloadUrl url name)) ∧
    (∀ idStr t, rest = idStr :: t → Uuid.parse_str idStr = none →
      parse_url_content_id url = .error (.InvalidDownloadUrl url)) ∧
    (rest = [] → parse_url_content_id url = .error (.InvalidDownloadUrl url)) ∧
    (∀ idStr, rest = [idStr] →
      parse_url_content_id url = .error (.InvalidDownloadUrl url)) ∧
    (∀ idStr s₃ s₄ t, rest = idStr :: s₃ :: s₄ :: t →
      parse_url_content_id url = .error (.InvalidDownloadUrl url)) := by
  refine ⟨?_, ?_, ?_, ?_, ?_⟩
  · rintro idStr name u rfl hu
    simp [parse_url_content_id, h, hu]
  · rintro idStr t rfl hu
    simp [parse_url_content_id, h, hu]
  · rintro rfl
    simp [parse_url_content_id, h]
  · rintro idStr rfl
    cases hu : Uuid.parse_str idStr <;> simp [parse_url_content_id, h, hu]
  · rintro idStr s₃ s₄ t rfl
    cases hu : Uuid.parse_str idStr <;> simp [parse_url_content_id, h, hu]

/-- Witness for C4 at the URL
`https://gofile.io/download/d290f1ee-6c54-4b01-90e6-d701748f0851/file.txt`. -/
theorem C4_download_branch_witness :
    parse_url_content_id
      (Url.mk "https://gofile.io/download/d290f1ee-6c54-4b01-90e6-d701748f0851/file.txt"
        (some ["download", "d290f1ee-6c54-4b01-90e6-d701748f0851", "file.txt"])) =
      .ok (.DownloadUrl
        (Url.mk "https://gofile.io/download/d290f1ee-6c54-4b01-90e6-d701748f0851/file.txt"
          (some ["download", "d290f1ee-6c54-4b01-90e6-d701748f0851", "file.txt"]))
        "file.txt") :=
  (C4_download_branch
    (Url.mk "https://gofile.io/download/d290f1ee-6c54-4b01-90e6-d701748f0851/file.txt"
      (some ["download", "d290f1ee-6c54-4b01-90e6-d701748f0851", "file.txt"]))
    ["d290f1ee-6c54-4b01-90e6-d701748f0851", "file.txt"] rfl).1
    "d290f1ee-6c54-4b01-90e6-d701748f0851" "file.txt"
    279890476813004791971719517438707959889 rfl (by decide)

/-- C10: an empty path segment produced by a trailing slash counts as a
present segment: segments `["d", ""]` (path `/d/`) resolve to `Code ""`;
segments `["download", idStr, ""]` with a valid UUID second segment (path
`/download/<id>/`) resolve to `DownloadUrl` with the empty filename; and
segments `["d", code, ""]` (path `/d/<code>/`) are rejected as an extra
trailing segment with `InvalidContentUrl`. -/
theorem C10_trailing_slash_segments (url₁ url₂ url₃ : Url) :
    (url₁.path_segments = some ["d", ""] →
      parse_url_content_id url₁ = .ok (.Code "")) ∧
    (∀ idStr u, url₂.path_segments = some ["download", idStr, ""] →
      Uuid.parse_str idStr = some u →
      parse_url_content_id url₂ = .ok (.DownloadUrl url₂ "")) ∧
    (∀ code, url₃.path_segments = some ["d", code, ""] →
      parse_url_content_id url₃ = .error (.InvalidContentUrl url₃)) := by
  refine ⟨?_, ?_, ?_⟩
  · intro h
    simp [parse_url_content_id, h]
  · intro idStr u h hu
    simp [parse_url_content_id, h, hu]
  · intro code h
    simp [parse_url_content_id, h]

/-- Witness for C10 at the three URLs `https://gofile.io/d/`,
`https://gofile.io/download/d290f1ee-6c54-4b01-90e6-d701748f0851/` and
`https://gofile.io/d/AbCdEf/`, with segments as produced by the URL model. -/
theorem C10_trailing_slash_segments_witness :
    url_parse_model "https://gofile.io/d/" =
      some (Url.mk "https://gofile.io/d/" (some ["d", ""])) ∧
    parse_url_content_id (Url.mk "https://gofile.io/d/" (some ["d", ""])) =
      .ok (.Code "") ∧
    parse_url_content_id
      (Url.mk "https://gofile.io/download/d290f1ee-6c54-4b01-90e6-d701748f0851/"
        (some ["download", "d290f1ee-6c54-4b01-90e6-d701748f0851", ""])) =
      .ok (.DownloadUrl
        (Url.mk "https://gofile.io/download/d290f1ee-6c54-4b01-90e6-d701748f0851/"
          (some ["download", "d290f1ee-6c54-4b01-90e6-d701748f0851", ""])) "") ∧
    parse_url_content_id (Url.mk "https://gofile.io/d/AbCdEf/"
        (some ["d", "AbCdEf", ""])) =
      .error (.InvalidContentUrl
        (Url.mk "https://gofile.io/d/AbCdEf/" (some ["d", "AbCdEf", ""]))) :=
  ⟨by decide,
    (C10_trailing_slash_segments (Url.mk "https://gofile.io/d/" (some ["d", ""]))
      (Url.mk "https://gofile.io/download/d290f1ee-6c54-4b01-90e6-d701748f0851/"
        (some ["download", "d290f1ee-6c54-4b01-90e6-d701748f0851", ""]))
      (Url.mk "https://gofile.io/d/AbCdEf/" (some ["d", "AbCdEf", ""]))).1 rfl,
    (C10_trailing_slash_segments (Url.mk "https://gofile.io/d/" (some ["d", ""]))
      (Url.mk "https://gofile.io/download/d290f1ee-6c54-4b01-90e6-d701748f0851/"
        (some ["download", "d290f1ee-6c54-4b01-90e6-d701748f0851", ""]))
      (Url.mk "https://gofile.io/d/AbCdEf/" (some ["d", "AbCdEf", ""]))).2.1
      "d290f1ee-6c54-4b01-90e6-d701748f0851"
      279890476813004791971719517438707959889 rfl (by decide),
    (C10_trailing_slash_segments (Url.mk "https://gofile.io/d/" (some ["d", ""]))
      (Url.mk "https://gofile.io/download/d290f1ee-6c54-4b01-90e6-d701748f0851/"
        (some ["download", "d290f1ee-6c54-4b01-90e6-d701748f0851", ""]))
      (Url.mk "https://gofile.io/d/AbCdEf/" (some ["d", "AbCdEf", ""]))).2.2
      "AbCdEf" rfl⟩

/-- C5: whenever a streaming copy through the `Md5Filter` completes — for any
initial destination content, any division of the byte sequence into chunks
and any partial-acceptance schedule of the inner sink — the bytes fed to the
digest accumulator are exactly the bytes the wrapped sink accepted (the bytes
appended to the destination), never more, and the computed digest is the
digest of the flattened byte sequence, hence invariant to chunk boundaries. -/
theorem C5_digest_matches_destination (dest : List Nat) (chunks sched : List (List Nat))
    (md5 : List Nat → List Nat) (f : Md5Filter)
    (h : copy (Md5Filter.new dest) chunks sched = some f) :
    f.writer = dest ++ f.md5_cx ∧
    Md5Filter.compute_digest md5 f = md5 chunks.flatten := by
  have hs := copy_spec chunks sched (Md5Filter.new dest) f h
  constructor
  · rw [hs.1, hs.2]
    simp [Md5Filter.new]
  · simp [Md5Filter.compute_digest, hs.2, Md5Filter.new]

/-- Witness for C5: the stream `[1,2,3,4,5]` arriving as chunks `[1,2,3]`
and `[4,5]`, with the sink accepting 2, then 1, then 2 bytes. -/
theorem C5_digest_matches_destination_witness :
    (Md5Filter.mk [1, 2, 3, 4, 5] [1, 2, 3, 4, 5]).writer =
      [] ++ (Md5Filter.mk [1, 2, 3, 4, 5] [1, 2, 3, 4, 5]).md5_cx ∧
    Md5Filter.compute_digest id (Md5Filter.mk [1, 2, 3, 4, 5] [1, 2, 3, 4, 5]) =
      id [[1, 2, 3], [4, 5]].flatten :=
  C5_digest_matches_destination [] [[1, 2, 3], [4, 5]] [[2, 1], [2]] id
    (Md5Filter.mk [1, 2, 3, 4, 5] [1, 2, 3, 4, 5]) (by decide)

/-- C6: in a folder whose earlier children all download to exactly their
declared digest, a child whose downloaded digest disagrees with the declared
checksum makes the walker fail with `Md5DigestMismatched` carrying the
expected and the actual digest in hex, and — for every possible tail of
later children — the transfers performed are exactly the earlier children's
and the failing child's, so no later child is processed. -/
theorem C6_checksum_mismatch_fail_fast (dl : Url → String → Except Error (List Nat))
    (folderName : String) (pre : List FileChild) (id : Nat) (name : String)
    (link : Url) (expected actual : List Nat) (tail : List (Nat × Content))
    (hpre : ∀ fc ∈ pre, dl fc.link fc.name = .ok fc.md5)
    (hdl : dl link name = .ok actual) (hne : expected ≠ actual) :
    download_all_child_contents dl
      (Content.mk folderName (.Folder (some (pre.map FileChild.toChild ++
        (id, Content.mk name (.File link expected)) :: tail)))) =
      .error (.Md5DigestMismatched
        (digestToHex expected ++ " != " ++ digestToHex actual)) ∧
    download_all_child_contents_trace dl
      (Content.mk folderName (.Folder (some (pre.map FileChild.toChild ++
        (id, Content.mk name (.File link expected)) :: tail)))) =
      (.error (.Md5DigestMismatched
        (digestToHex expected ++ " != " ++ digestToHex actual)),
        pre.map (fun fc => (fc.link, fc.name)) ++ [(link, name)]) := by
  have hbad : download_children_trace dl
      ((id, Content.mk name (.File link expected)) :: tail) =
      (.error (.Md5DigestMismatched
        (digestToHex expected ++ " != " ++ digestToHex actual)), [(link, name)]) := by
    simp [download_children_trace, Content.kind, Content.name, hdl, hne]
  have hrun := download_children_trace_ok_run dl pre hpre
    ((id, Content.mk name (.File link expected)) :: tail)
  rw [hbad] at hrun
  have hlen : (pre.map FileChild.toChild ++
      (id, Content.mk name (.File link expected)) :: tail).length ≠ 0 := by
    simp
  have htrace : download_all_child_contents_trace dl
      (Content.mk folderName (.Folder (some (pre.map FileChild.toChild ++
        (id, Content.mk name (.File link expected)) :: tail)))) =
      (.error (.Md5DigestMismatched
        (digestToHex expected ++ " != " ++ digestToHex actual)),
        pre.map (fun fc => (fc.link, fc.name)) ++ [(link, name)]) := by
    simp only [download_all_child_contents_trace, Content.kind]
    simp [hlen, hrun]
  refine ⟨?_, htrace⟩
  rw [← download_all_child_contents_trace_fst, htrace]

/-- Witness for C6: one earlier matching child, then a child declaring
digest `0x01…` whose download digests to `0x00…`, then one further child
that is never reached. -/
theorem C6_checksum_mismatch_fail_fast_witness :
    download_all_child_contents (fun _ _ => .ok [0])
      (Content.mk "folder" (.Folder (some
        ([FileChild.mk 1 "a.txt" (Url.mk "https://h/a" (some ["a"])) [0]].map
            FileChild.toChild ++
          (2, Content.mk "b.txt" (.File (Url.mk "https://h/b" (some ["b"])) [1])) ::
          [(3, Content.mk "c.txt" (.File (Url.mk "https://h/c" (some ["c"])) [0]))])))) =
      .error (.Md5DigestMismatched
        (digestToHex [1] ++ " != " ++ digestToHex [0])) ∧
    download_all_child_contents_trace (fun _ _ => .ok [0])
      (Content.mk "folder" (.Folder (some
        ([FileChild.mk 1 "a.txt" (Url.mk "https://h/a" (some ["a"])) [0]].map
            FileChild.toChild ++
          (2, Content.mk "b.txt" (.File (Url.mk "https://h/b" (some ["b"])) [1])) ::
          [(3, Content.mk "c.txt" (.File (Url.mk "https://h/c" (some ["c"])) [0]))])))) =
      (.error (.Md5DigestMismatched
        (digestToHex [1] ++ " != " ++ digestToHex [0])),
        [FileChild.mk 1 "a.txt" (Url.mk "https://h/a" (some ["a"])) [0]].map
            (fun fc => (fc.link, fc.name)) ++
          [(Url.mk "https://h/b" (some ["b"]), "b.txt")]) :=
  C6_checksum_mismatch_fail_fast (fun _ _ => .ok [0]) "folder"
    [FileChild.mk 1 "a.txt" (Url.mk "https://h/a" (some ["a"])) [0]]
    2 "b.txt" (Url.mk "https://h/b" (some ["b"])) [1] [0]
    [(3, Content.mk "c.txt" (.File (Url.mk "https://h/c" (some ["c"])) [0]))]
    (by intro fc hfc; rcases List.mem_singleton.mp hfc with rfl; rfl)
    rfl (by decide)

/-- C7: a folder whose child collection is absent and a folder whose child
collection is present but empty both make the walker fail with the same
`NoContent` error. -/
theorem C7_no_content (dl : Url → String → Except Error (List Nat)) (name : String) :
    download_all_child_contents dl (Content.mk name (.Folder none)) =
      .error .NoContent ∧
    download_all_child_contents dl (Content.mk name (.Folder (some []))) =
      .error .NoContent :=
  ⟨rfl, rfl⟩

/-- C8: in a folder whose earlier children all download to exactly their
declared digest, a child that is itself a folder makes the walker fail with
`NotImplementedForSubdir` when it is reached in enumeration order, and — for
every possible tail of later children — the transfers performed are exactly
the earlier children's, so neither the nested folder nor any later child is
transferred. -/
theorem C8_nested_folder_fail_fast (dl : Url → String → Except Error (List Nat))
    (folderName : String) (pre : List FileChild) (id : Nat) (name : String)
    (sub : Option (List (Nat × Content))) (tail : List (Nat × Content))
    (hpre : ∀ fc ∈ pre, dl fc.link fc.name = .ok fc.md5) :
    download_all_child_contents dl
      (Content.mk folderName (.Folder (some (pre.map FileChild.toChild ++
        (id, Content.mk name (.Folder sub)) :: tail)))) =
      .error .NotImplementedForSubdir ∧
    download_all_child_contents_trace dl
      (Content.mk folderName (.Folder (some (pre.map FileChild.toChild ++
        (id, Content.mk name (.Folder sub)) :: tail)))) =
      (.error .NotImplementedForSubdir,
        pre.map (fun fc => (fc.link, fc.name))) := by
  have hbad : download_children_trace dl
      ((id, Content.mk name (.Folder sub)) :: tail) =
      (.error .NotImplementedForSubdir, []) := by
    simp [download_children_trace, Content.kind]
  have hrun := download_children_trace_ok_run dl pre hpre
    ((id, Content.mk name (.Folder sub)) :: tail)
  rw [hbad] at hrun
  have hlen : (pre.map FileChild.toChild ++
      (id, Content.mk name (.Folder sub)) :: tail).length ≠ 0 := by
    simp
  have htrace : download_all_child_contents_trace dl
      (Content.mk folderName (.Folder (some (pre.map FileChild.toChild ++
        (id, Content.mk name (.Folder sub)) :: tail)))) =
      (.error .NotImplementedForSubdir,
        pre.map (fun fc => (fc.link, fc.name))) := by
    simp only [download_all_child_contents_trace, Content.kind]
    simp [hlen, hrun]
  refine ⟨?_, htrace⟩
  rw [← download_all_child_contents_trace_fst, htrace]

/-- Witness for C8: one earlier matching child, then a nested folder child,
then one further child that is never reached. -/
theorem C8_nested_folder_fail_fast_witness :
    download_all_child_contents (fun _ _ => .ok [0])
      (Content.mk "folder" (.Folder (some
        ([FileChild.mk 1 "a.txt" (Url.mk "https://h/a" (some ["a"])) [0]].map
            FileChild.toChild ++
          (2, Content.mk "inner" (.Folder (some []))) ::
          [(3, Content.mk "c.txt" (.File (Url.mk "https://h/c" (some ["c"])) [0]))])))) =
      .error .NotImplementedForSubdir ∧
    download_all_child_contents_trace (fun _ _ => .ok [0])
      (Content.mk "folder" (.Folder (some
        ([FileChild.mk 1 "a.txt" (Url.mk "https://h/a" (some ["a"])) [0]].map
            FileChild.toChild ++
          (2, Content.mk "inner" (.Folder (some []))) ::
          [(3, Content.mk "c.txt" (.File (Url.mk "https://h/c" (some ["c"])) [0]))])))) =
      (.error .NotImplementedForSubdir,
        [FileChild.mk 1 "a.txt" (Url.mk "https://h/a" (some ["a"])) [0]].map
          (fun fc => (fc.link, fc.name))) :=
  C8_nested_folder_fail_fast (fun _ _ => .ok [0]) "folder"
    [FileChild.mk 1 "a.txt" (Url.mk "https://h/a" (some ["a"])) [0]]
    2 "inner" (some [])
    [(3, Content.mk "c.txt" (.File (Url.mk "https://h/c" (some ["c"])) [0]))]
    (by intro fc hfc; rcases List.mem_singleton.mp hfc with rfl; rfl)

/-- C9: when the content description resolved for a `Uuid` or a `Code`
identifier has kind `File`, the download of that identifier fails with
`InvalidTopLevelFile` naming the file, and the walker performs no transfer
on such a description (its transfer trace is empty). -/
theorem C9_top_level_file (getById : Nat → Except Error Content)
    (getByCode : String → Except Error Content)
    (dl : Url → String → Except Error (List Nat))
    (id : Nat) (code fname : String) (link : Url) (d : List Nat) :
    (getById id = .ok (Content.mk fname (.File link d)) →
      download getById getByCode dl (.Uuid id) =
        .error (.InvalidTopLevelFile fname)) ∧
    (getByCode code = .ok (Content.mk fname (.File link d)) →
      download getById getByCode dl (.Code code) =
        .error (.InvalidTopLevelFile fname)) ∧
    download_all_child_contents_trace dl (Content.mk fname (.File link d)) =
      (.error (.InvalidTopLevelFile fname), []) := by
  refine ⟨?_, ?_, rfl⟩
  · intro h
    simp [download, h, download_all_child_contents, Content.kind, Content.name]
  · intro h
    simp [download, h, download_all_child_contents, Content.kind, Content.name]

/-- Witness for C9: an API that resolves both the id `7` and the code
`"AbCdEf"` to a bare top-level file named `file.bin`. -/
theorem C9_top_level_file_witness :
    download (fun _ => .ok (Content.mk "file.bin"
        (.File (Url.mk "https://h/f" (some ["f"])) [0])))
      (fun _ => .ok (Content.mk "file.bin"
        (.File (Url.mk "https://h/f" (some ["f"])) [0])))
      (fun _ _ => .ok [0]) (.Uuid 7) = .error (.InvalidTopLevelFile "file.bin") ∧
    download (fun _ => .ok (Content.mk "file.bin"
        (.File (Url.mk "https://h/f" (some ["f"])) [0])))
      (fun _ => .ok (Content.mk "file.bin"
        (.File (Url.mk "https://h/f" (some ["f"])) [0])))
      (fun _ _ => .ok [0]) (.Code "AbCdEf") =
        .error (.InvalidTopLevelFile "file.bin") ∧
    download_all_child_contents_trace (fun _ _ => .ok [0])
      (Content.mk "file.bin" (.File (Url.mk "https://h/f" (some ["f"])) [0])) =
      (.error (.InvalidTopLevelFile "file.bin"), []) := by
  refine ⟨?_, ?_, ?_⟩
  · exact (C9_top_level_file (fun _ => .ok (Content.mk "file.bin"
        (.File (Url.mk "https://h/f" (some ["f"])) [0])))
      (fun _ => .ok (Content.mk "file.bin"
        (.File (Url.mk "https://h/f" (some ["f"])) [0])))
      (fun _ _ => .ok [0]) 7 "AbCdEf" "file.bin"
      (Url.mk "https://h/f" (some ["f"])) [0]).1 rfl
  · exact (C9_top_level_file (fun _ => .ok (Content.mk "file.bin"
        (.File (Url.mk "https://h/f" (some ["f"])) [0])))
      (fun _ => .ok (Content.mk "file.bin"
        (.File (Url.mk "https://h/f" (some ["f"])) [0])))
      (fun _ _ => .ok [0]) 7 "AbCdEf" "file.bin"
      (Url.mk "https://h/f" (some ["f"])) [0]).2.1 rfl
  · exact (C9_top_level_file (fun _ => .ok (Content.mk "file.bin"
        (.File (Url.mk "https://h/f" (some ["f"])) [0])))
      (fun _ => .ok (Content.mk "file.bin"
        (.File (Url.mk "https://h/f" (some ["f"])) [0])))
      (fun _ _ => .ok [0]) 7 "AbCdEf" "file.bin"
      (Url.mk "https://h/f" (some ["f"])) [0]).2.2

end Gofile
